import Mathlib

/-!
Shallow embedding of the video-selection service
(`src/video-selection/main.py`) of the youbuddy-adk-mcp repository.

Real-valued arithmetic of the source (Python floats) is modelled with
exact rationals (`ℚ`); machine integers of the source (Python `int`) are
unbounded, matching `Int`.  The external YouTube search and details
capabilities are modelled as frozen response functions passed to the
pipeline.  CPython's `datetime.fromisoformat` (Python ≥ 3.11) is modelled
by an executable parser restricted to the extended ISO-8601 format
`YYYY-MM-DD[<sep>HH[:MM[:SS[.ffff]]][offset]]` with `offset` one of
nothing, `Z`, `z`, or `±HH[:MM[:SS]]`; the compact basic formats
(e.g. `20240101`), ISO week dates and fractional-second UTC offsets,
which the external API never produces, are outside the model and parse
to `none`.

`datetime.timestamp()` applied to a timezone-naive datetime uses the
process's local timezone; this environment dependence is modelled by an
explicit `localOff` parameter (the local UTC offset, in seconds) threaded
through the scoring functions.
-/

/-- Constant `RATIO_WEIGHT = 0.6` (main.py line 25). -/
def RATIO_WEIGHT : ℚ := 6 / 10

/-- Constant `RECENCY_WEIGHT = 0.4` (main.py line 26). -/
def RECENCY_WEIGHT : ℚ := 4 / 10

/-- Constant `RECENCY_SCALE_FACTOR = 1e10` (main.py line 30). -/
def RECENCY_SCALE_FACTOR : ℚ := 10 ^ 10

/-- Constant `INITIAL_FETCH_COUNT = 50` (main.py line 33). -/
def INITIAL_FETCH_COUNT : Nat := 50

/-- A parsed Python `datetime`: the fields `fromisoformat` fills in.
`tzOffset` is the UTC offset in whole seconds (`none` for a naive
datetime). -/
structure PyDateTime where
  year : Nat
  month : Nat
  day : Nat
  hour : Nat
  minute : Nat
  second : Nat
  microsecond : Nat
  tzOffset : Option Int
deriving DecidableEq, Repr

/-- Read exactly `n` ASCII digits, most significant first. -/
def readDigits : Nat → Nat → List Char → Option (Nat × List Char)
  | 0, acc, cs => some (acc, cs)
  | _ + 1, _, [] => none
  | n + 1, acc, c :: cs =>
    if c.isDigit then readDigits n (acc * 10 + (c.toNat - 48)) cs else none

/-- Value of a digit string read in base 10. -/
def digitsVal (ds : List Char) : Nat :=
  ds.foldl (fun a c => a * 10 + (c.toNat - 48)) 0

/-- Fractional seconds after the `.`/`,`: one or more digits, truncated to
microseconds exactly as CPython does. -/
def parseFrac (cs : List Char) : Option (Nat × List Char) :=
  let ds := cs.takeWhile Char.isDigit
  if ds.isEmpty then none
  else some (digitsVal (ds.take 6 ++ List.replicate (6 - ds.length) '0'),
             cs.dropWhile Char.isDigit)

/-- Parse `HH[:MM[:SS[.ffff]]]`, returning hour, minute, second,
microsecond and the remaining characters. -/
def parseHMS (cs : List Char) : Option (Nat × Nat × Nat × Nat × List Char) :=
  match readDigits 2 0 cs with
  | none => none
  | some (h, rest) =>
    match rest with
    | ':' :: rest2 =>
      match readDigits 2 0 rest2 with
      | none => none
      | some (m, rest3) =>
        match rest3 with
        | ':' :: rest4 =>
          match readDigits 2 0 rest4 with
          | none => none
          | some (s, rest5) =>
            match rest5 with
            | '.' :: rest6 =>
              (parseFrac rest6).map (fun p => (h, m, s, p.1, p.2))
            | ',' :: rest6 =>
              (parseFrac rest6).map (fun p => (h, m, s, p.1, p.2))
            | _ => some (h, m, s, 0, rest5)
        | _ => some (h, m, 0, 0, rest3)
    | _ => some (h, 0, 0, 0, rest)

/-- Parse the trailing timezone designator: empty (naive), `Z`/`z`, or
`±HH[:MM[:SS]]`; the whole remainder must be consumed. -/
def parseOffset (cs : List Char) : Option (Option Int) :=
  match cs with
  | [] => some none
  | ['Z'] => some (some 0)
  | ['z'] => some (some 0)
  | c :: rest =>
    if c = '+' ∨ c = '-' then
      match parseHMS rest with
      | some (h, m, s, micro, []) =>
        if micro = 0 ∧ h ≤ 23 ∧ m ≤ 59 ∧ s ≤ 59 then
          let magnitude : Int := 3600 * h + 60 * m + s
          some (some (if c = '-' then -magnitude else magnitude))
        else none
      | _ => none
    else none

/-- Returns `true` for leap years, as in the proleptic Gregorian calendar used by
Python's `datetime`. -/
def isLeap (y : Nat) : Bool := y % 4 = 0 ∧ (y % 100 ≠ 0 ∨ y % 400 = 0)

/-- Number of days in a month of the proleptic Gregorian calendar. -/
def daysInMonth (y m : Nat) : Nat :=
  if m = 2 then (if isLeap y then 29 else 28)
  else if m = 4 ∨ m = 6 ∨ m = 9 ∨ m = 11 then 30
  else 31

/-- Days since the POSIX epoch 1970-01-01 of the Gregorian date `y-m-d`
(`1 ≤ y`), by the standard civil-calendar algorithm. -/
def daysFromCivil (y m d : Nat) : Int :=
  let yAdj := if m ≤ 2 then y - 1 else y
  let era := yAdj / 400
  let yoe := yAdj % 400
  let mp := if 2 < m then m - 3 else m + 9
  let doy := (153 * mp + 2) / 5 + d - 1
  let doe := yoe * 365 + yoe / 4 - yoe / 100 + doy
  (era : Int) * 146097 + (doe : Int) - 719468

/-- Model of CPython `datetime.fromisoformat` on the extended ISO-8601
format (see the module header for the modelled subset): `none` exactly
when CPython raises `ValueError` on such an input. -/
def fromisoformat (s : String) : Option PyDateTime :=
  match readDigits 4 0 s.data with
  | none => none
  | some (y, r1) =>
    match r1 with
    | '-' :: r2 =>
      match readDigits 2 0 r2 with
      | none => none
      | some (mo, r3) =>
        match r3 with
        | '-' :: r4 =>
          match readDigits 2 0 r4 with
          | none => none
          | some (d, r5) =>
            if 1 ≤ y ∧ 1 ≤ mo ∧ mo ≤ 12 ∧ 1 ≤ d ∧ d ≤ daysInMonth y mo then
              match r5 with
              | [] => some ⟨y, mo, d, 0, 0, 0, 0, none⟩
              | _sep :: r6 =>
                match parseHMS r6 with
                | none => none
                | some (h, mi, sec, micro, r7) =>
                  if h ≤ 23 ∧ mi ≤ 59 ∧ sec ≤ 59 then
                    match parseOffset r7 with
                    | none => none
                    | some off => some ⟨y, mo, d, h, mi, sec, micro, off⟩
                  else none
            else none
        | _ => none
    | _ => none

/-- Python `datetime.timestamp()`: POSIX seconds since the epoch.  For an aware
datetime this subtracts its own UTC offset; for a naive one CPython uses
the process's local timezone, modelled by `localOff` (seconds east of
UTC). -/
def pyTimestamp (localOff : ℚ) (dt : PyDateTime) : ℚ :=
  let days := daysFromCivil dt.year dt.month dt.day
  let secs : ℚ := (days : ℚ) * 86400 + dt.hour * 3600 + dt.minute * 60
      + dt.second + (dt.microsecond : ℚ) / 1000000
  match dt.tzOffset with
  | some off => secs - (off : ℚ)
  | none => secs - localOff

/-- The call `published_at_str.replace('Z', '+00:00')` (main.py line 95): Python
`str.replace` with a one-character pattern replaces every occurrence. -/
def replaceZ (s : String) : String :=
  ⟨s.data.flatMap (fun c => if c = 'Z' then "+00:00".data else [c])⟩

/-- Python truthiness of an `Optional[int]`: `None` and `0` are falsy. -/
def truthy : Option Int → Bool
  | none => false
  | some n => n != 0

/-- The `ratio_score` computed by `calculate_score` (main.py lines 84-89):
`if view_count and like_count and view_count > 0: ... elif like_count and
like_count > 0 and (view_count is None or view_count == 0): ...`. -/
def ratio_component (view_count like_count : Option Int) : ℚ :=
  if truthy view_count ∧ truthy like_count ∧ 0 < view_count.getD 0 then
    (like_count.getD 0 : ℚ) / (view_count.getD 0 : ℚ)
  else if truthy like_count ∧ 0 < like_count.getD 0 ∧
      (view_count = none ∨ view_count = some 0) then
    1 / 100
  else 0

/-- The `recency_score` computed by `calculate_score` (main.py lines
92-101): parse the date with the `Z` suffix rewritten to `+00:00`, take
the POSIX timestamp scaled by `RECENCY_SCALE_FACTOR`; on a parse failure
the `except` branch leaves the score at `0`. -/
def recency_component (localOff : ℚ) (published_at_str : String) : ℚ :=
  match fromisoformat (replaceZ published_at_str) with
  | some dt => pyTimestamp localOff dt / RECENCY_SCALE_FACTOR
  | none => 0

/-- The function `calculate_score` (main.py lines 81-108). -/
def calculate_score (localOff : ℚ) (view_count like_count : Option Int)
    (published_at_str : String) : ℚ :=
  RATIO_WEIGHT * ratio_component view_count like_count
    + RECENCY_WEIGHT * recency_component localOff published_at_str

example : fromisoformat (replaceZ "2024-01-01T00:00:00Z")
    = some ⟨2024, 1, 1, 0, 0, 0, 0, some 0⟩ := by decide

example : pyTimestamp 0 ⟨2024, 1, 1, 0, 0, 0, 0, some 0⟩ = 1704067200 := by
  norm_num [pyTimestamp, daysFromCivil]

example : fromisoformat (replaceZ "not-a-date") = none := by decide

example : fromisoformat "2024-02-30T00:00:00" = none := by decide

example : fromisoformat "2024-02-29 13:05:07.25+05:30"
    = some ⟨2024, 2, 29, 13, 5, 7, 250000, some 19800⟩ := by decide

/-! ## The `/search` pipeline (`search_videos_custom_score`, main.py
lines 112-203)

The external capabilities are modelled as frozen response functions: the
search capability maps a query and a `maxResults` bound to the `items` of
its response, the details capability maps one batch of video ids to the
`items` of the `videos().list` response for that batch. -/

/-- The `id` object of one search-response item: `{"kind": ..,
"videoId": ..}`. -/
structure SearchItemId where
  kind : String
  videoId : String
deriving DecidableEq, Repr

/-- One item of the search response: only its `id` object is read
(`item.get("id", {})`, absent modelled as `none`). -/
structure SearchItem where
  id : Option SearchItemId
deriving DecidableEq, Repr

/-- The `statistics` object of a details item, after the source's
string-to-int conversion `int(s) if s else None` (main.py lines
170-172); absent or empty-string counts are `none`. -/
structure Statistics where
  viewCount : Option Int := none
  likeCount : Option Int := none
deriving DecidableEq, Repr

/-- The `snippet` object of a details item; fields read via
`snippet.get(..)`, so each is optional. -/
structure Snippet where
  publishedAt : Option String := none
  title : Option String := none
  channelTitle : Option String := none
  description : Option String := none
deriving DecidableEq, Repr

/-- One item of a details response: `video_data["id"]` is always present
(a KeyError would be a malformed response, outside the model);
`snippet`/`statistics` are read with `.get(.., {})`. -/
structure VideoData where
  id : String
  snippet : Option Snippet := none
  statistics : Option Statistics := none
deriving DecidableEq, Repr

/-- The dict appended to `videos_with_scores` (main.py lines 177-189). -/
structure ScoredVideo where
  id : String
  url : String
  title : String
  channelTitle : String
  publishedAt : String
  description : Option String
  viewCount : Option Int
  likeCount : Option Int
  customScore : ℚ
deriving DecidableEq, Repr

/-- The `VideoItem` response model (main.py lines 51-60), omitting
`customScore`. -/
structure VideoItem where
  id : String
  url : String
  title : String
  channelTitle : String
  publishedAt : String
  description : Option String
  viewCount : Option Int
  likeCount : Option Int
deriving DecidableEq, Repr

/-- Step 1 filter (main.py lines 139-142): collect `item["id"]["videoId"]`
for every search item whose `id.kind` is `"youtube#video"`. -/
def extractVideoIds : List SearchItem → List String
  | [] => []
  | it :: rest =>
    match it.id with
    | some sid =>
      if sid.kind = "youtube#video" then sid.videoId :: extractVideoIds rest
      else extractVideoIds rest
    | none => extractVideoIds rest

/-- Worker for `batches`, structurally recursive on a fuel bound (every
iteration drops at least one element, so the list length is enough
fuel); structural recursion keeps the definition kernel-reducible. -/
def batchesAux {α : Type} : Nat → List α → List (List α)
  | _, [] => []
  | 0, _ :: _ => []
  | fuel + 1, a :: rest =>
    ((a :: rest).take 50) :: batchesAux fuel ((a :: rest).drop 50)

/-- The batching loop `for i in range(0, len(video_ids), 50):
batch_ids = video_ids[i:i+50]` (main.py lines 152-153), as the list of
the successive batches. -/
def batches {α : Type} (l : List α) : List (List α) :=
  batchesAux l.length l

/-- The body of the scoring loop for one details item (main.py lines
162-190): skip the item unless `published_at` is truthy (present and
non-empty), else build the scored record. -/
def scoreOne (localOff : ℚ) (video_data : VideoData) : Option ScoredVideo :=
  let snippet := video_data.snippet.getD {}
  let stats := video_data.statistics.getD {}
  match snippet.publishedAt with
  | some published_at =>
    if published_at ≠ "" then
      some { id := video_data.id
             url := "https://www.youtube.com/watch?v=" ++ video_data.id
             title := snippet.title.getD "N/A"
             channelTitle := snippet.channelTitle.getD "N/A"
             publishedAt := published_at
             description := snippet.description
             viewCount := stats.viewCount
             likeCount := stats.likeCount
             customScore := calculate_score localOff stats.viewCount
               stats.likeCount published_at }
    else none
  | none => none

/-- Step 4 (main.py line 195): `videos_with_scores.sort(key=lambda x:
x["customScore"], reverse=True)` — CPython's stable sort, descending. -/
def sortByScoreDesc (videos : List ScoredVideo) : List ScoredVideo :=
  videos.mergeSort (fun a b => decide (b.customScore ≤ a.customScore))

/-- Step 6 (main.py line 201): `VideoItem(**video)` drops `customScore`. -/
def toVideoItem (v : ScoredVideo) : VideoItem :=
  { id := v.id, url := v.url, title := v.title, channelTitle := v.channelTitle
    publishedAt := v.publishedAt, description := v.description
    viewCount := v.viewCount, likeCount := v.likeCount }

/-- The `/search` handler body after validation (main.py lines 112-203),
over frozen external responses `search` and `details`. -/
def search_videos_custom_score (localOff : ℚ)
    (search : String → Nat → List SearchItem)
    (details : List String → List VideoData)
    (query : String) (max_results : Nat) : List VideoItem :=
  let search_items := search query INITIAL_FETCH_COUNT
  let video_ids := extractVideoIds search_items
  if video_ids = [] then []
  else
    let detailed_videos := (batches video_ids).flatMap details
    let videos_with_scores := detailed_videos.filterMap (scoreOne localOff)
    let sorted := sortByScoreDesc videos_with_scores
    let top_videos := sorted.take max_results
    top_videos.map toVideoItem

/-- FastAPI's declared parameter validation for the endpoint (main.py
lines 114-116): `query: str = Query(...)` is required but carries no
minimum length, `max_results: int = Query(10, ge=1,
le=INITIAL_FETCH_COUNT)` defaults to 10 and is bounded.  A violated
constraint is rejected with HTTP 422 before the handler body runs. -/
def validate_params (query : Option String) (max_results : Option Int) :
    Except Nat (String × Int) :=
  match query with
  | none => .error 422
  | some q =>
    match max_results with
    | none => .ok (q, 10)
    | some m =>
      if 1 ≤ m ∧ m ≤ (INITIAL_FETCH_COUNT : Int) then .ok (q, m)
      else .error 422

/-- The whole request: framework validation, then the handler body. -/
def handle_request (localOff : ℚ)
    (search : String → Nat → List SearchItem)
    (details : List String → List VideoData)
    (query : Option String) (max_results : Option Int) :
    Except Nat (List VideoItem) :=
  match validate_params query max_results with
  | .error code => .error code
  | .ok (q, m) =>
    .ok (search_videos_custom_score localOff search details q m.toNat)

/-! ## Spec-side definition for the refinement claim C1 -/

/-- The ratio exactly as the specification words it: `likeCount /
viewCount` if both counts are present and `viewCount > 0`; `0.01` if
`likeCount` is present and `> 0` while `viewCount` is absent or zero;
`0` otherwise. -/
def ratio_spec (view_count like_count : Option Int) : ℚ :=
  match view_count, like_count with
  | some v, some l =>
    if 0 < v then (l : ℚ) / (v : ℚ)
    else if 0 < l ∧ v = 0 then 1 / 100 else 0
  | none, some l => if 0 < l then 1 / 100 else 0
  | _, none => 0

/-- Variant `calculate_score_checked` replays `calculate_score` with every
implicitly-guarded exceptional point made explicit: the only division in
the source (`like_count / view_count`, main.py line 86) returns `none`
here when its divisor is zero, instead of relying on the guard.  That it
always returns `some` is the formal content of "no exceptional or
undefined result". -/
def calculate_score_checked (localOff : ℚ) (view_count like_count : Option Int)
    (published_at_str : String) : Option ℚ :=
  if truthy view_count ∧ truthy like_count ∧ 0 < view_count.getD 0 then
    if view_count.getD 0 = 0 then none
    else some (RATIO_WEIGHT * ((like_count.getD 0 : ℚ) / (view_count.getD 0 : ℚ))
      + RECENCY_WEIGHT * recency_component localOff published_at_str)
  else if truthy like_count ∧ 0 < like_count.getD 0 ∧
      (view_count = none ∨ view_count = some 0) then
    some (RATIO_WEIGHT * (1 / 100)
      + RECENCY_WEIGHT * recency_component localOff published_at_str)
  else
    some (RATIO_WEIGHT * 0
      + RECENCY_WEIGHT * recency_component localOff published_at_str)

/-! ## Helper lemmas -/

theorem ratio_component_eq_ratio_spec (v l : Option Int) :
    ratio_component v l = ratio_spec v l := by
  rcases v with _ | n <;> rcases l with _ | m <;>
    simp only [ratio_component, ratio_spec, truthy, Option.getD_none,
      Option.getD_some, bne_iff_ne, ne_eq, reduceCtorEq, Option.some.injEq,
      false_and, and_false, false_or, if_false] <;>
    split_ifs <;> first
      | rfl
      | omega
      | (rename_i hm; simp_all; omega)
      | skip
  all_goals simp_all
  all_goals
    (have hm0 : m = 0 := by omega)
  all_goals simp [hm0]

theorem batchesAux_flatten {α : Type} :
    ∀ (fuel : Nat) (l : List α), l.length ≤ fuel →
      (batchesAux fuel l).flatten = l := by
  intro fuel
  induction fuel with
  | zero =>
    intro l h
    cases l with
    | nil => rfl
    | cons a rest => simp at h
  | succ n ih =>
    intro l h
    cases l with
    | nil => rfl
    | cons a rest =>
      simp only [batchesAux, List.flatten_cons]
      rw [ih]
      · exact List.take_append_drop 50 (a :: rest)
      · simp only [List.length_drop, List.length_cons]
        simp only [List.length_cons] at h
        omega

theorem batches_flatten {α : Type} (l : List α) : (batches l).flatten = l :=
  batchesAux_flatten l.length l le_rfl

theorem batchesAux_size_le {α : Type} :
    ∀ (fuel : Nat) (l : List α), ∀ b ∈ batchesAux fuel l, b.length ≤ 50 := by
  intro fuel
  induction fuel with
  | zero =>
    intro l b hb
    cases l with
    | nil => simp [batchesAux] at hb
    | cons a rest => simp [batchesAux] at hb
  | succ n ih =>
    intro l b hb
    cases l with
    | nil => simp [batchesAux] at hb
    | cons a rest =>
      simp only [batchesAux, List.mem_cons] at hb
      rcases hb with h | h
      · subst h
        exact List.length_take_le 50 (a :: rest)
      · exact ih _ b h

theorem batches_size_le {α : Type} (l : List α) :
    ∀ b ∈ batches l, b.length ≤ 50 :=
  batchesAux_size_le l.length l

theorem mem_of_mem_batches {α : Type} {x : α} {b l : List α}
    (hb : b ∈ batches l) (hx : x ∈ b) : x ∈ l := by
  have h := batches_flatten l
  rw [← h]
  exact List.mem_flatten.mpr ⟨b, hb, hx⟩

theorem scoreOne_id (localOff : ℚ) (vd : VideoData) (sv : ScoredVideo)
    (h : scoreOne localOff vd = some sv) : sv.id = vd.id := by
  simp only [scoreOne] at h
  split at h
  · split at h
    · simp only [Option.some.injEq] at h
      subst h
      rfl
    · exact absurd h (by simp)
  · exact absurd h (by simp)

theorem scoreOne_none_of_no_date (localOff : ℚ) (vd : VideoData)
    (h : (vd.snippet.getD {}).publishedAt = none) :
    scoreOne localOff vd = none := by
  simp only [scoreOne, h]

/-- Structure of any output item: it was built by `toVideoItem` from a
scored record obtained by `scoreOne` on some item of some details
response batch. -/
theorem mem_output_structure (localOff : ℚ)
    (search : String → Nat → List SearchItem)
    (details : List String → List VideoData) (query : String) (n : Nat)
    (item : VideoItem)
    (h : item ∈ search_videos_custom_score localOff search details query n) :
    ∃ vd sv,
      vd ∈ (batches (extractVideoIds (search query INITIAL_FETCH_COUNT))).flatMap
        details
      ∧ scoreOne localOff vd = some sv ∧ item = toVideoItem sv := by
  simp only [search_videos_custom_score] at h
  split at h
  · exact absurd h (by simp)
  · obtain ⟨sv, hsv, rfl⟩ := List.mem_map.mp h
    have h1 : sv ∈ sortByScoreDesc
        (((batches (extractVideoIds (search query INITIAL_FETCH_COUNT))).flatMap
          details).filterMap (scoreOne localOff)) :=
      List.mem_of_mem_take hsv
    have h2 := (List.mem_mergeSort (l := ((batches (extractVideoIds
        (search query INITIAL_FETCH_COUNT))).flatMap details).filterMap
        (scoreOne localOff))).mp h1
    obtain ⟨vd, hvd, hs⟩ := List.mem_filterMap.mp h2
    exact ⟨vd, sv, hvd, hs, rfl⟩

theorem flatMap_details_length_le (details : List String → List VideoData)
    (hacd : ∀ b, (details b).length ≤ b.length) (bs : List (List String)) :
    (bs.flatMap details).length ≤ bs.flatten.length := by
  induction bs with
  | nil => simp
  | cons b bs ih =>
    simp only [List.flatMap_cons, List.flatten_cons, List.length_append]
    have := hacd b
    omega

theorem extractVideoIds_length_le (items : List SearchItem) :
    (extractVideoIds items).length ≤ items.length := by
  induction items with
  | nil => simp [extractVideoIds]
  | cons it rest ih =>
    simp only [extractVideoIds, List.length_cons]
    split
    · split
      · simp only [List.length_cons]
        omega
      · omega
    · omega

/-! ## Claims -/

/-- C1: whenever `publishedAt` parses as an ISO-8601 timestamp (the `Z`
suffix rewritten to `+00:00` first), `calculate_score` returns exactly
`0.6 * ratio + 0.4 * (posix_timestamp / 1e10)` where `ratio` is the
specification's three-case ratio (`ratio_spec`). -/
theorem claim_C1_score_formula (localOff : ℚ) (view_count like_count : Option Int)
    (published_at_str : String) (dt : PyDateTime)
    (h : fromisoformat (replaceZ published_at_str) = some dt) :
    calculate_score localOff view_count like_count published_at_str
      = RATIO_WEIGHT * ratio_spec view_count like_count
        + RECENCY_WEIGHT * (pyTimestamp localOff dt / RECENCY_SCALE_FACTOR) := by
  simp only [calculate_score, recency_component, h,
    ratio_component_eq_ratio_spec]

/-- Witness for C1 at `viewCount = 1000`, `likeCount = 100`,
`publishedAt = "2024-01-01T00:00:00Z"`. -/
theorem claim_C1_score_formula_witness :
    calculate_score 0 (some 1000) (some 100) "2024-01-01T00:00:00Z"
      = RATIO_WEIGHT * ratio_spec (some 1000) (some 100)
        + RECENCY_WEIGHT * (pyTimestamp 0 ⟨2024, 1, 1, 0, 0, 0, 0, some 0⟩
            / RECENCY_SCALE_FACTOR) :=
  claim_C1_score_formula 0 (some 1000) (some 100) "2024-01-01T00:00:00Z"
    ⟨2024, 1, 1, 0, 0, 0, 0, some 0⟩ (by decide)

/-- C2: when `publishedAt` fails to parse, `calculate_score` still
returns (it is total), the recency component is `0` so the result is
`RATIO_WEIGHT * ratio`; and the scoring loop still emits a scored item
for such a video (the failure is absorbed inside `calculate_score`,
never propagated). -/
theorem claim_C2_parse_failure_degrades (localOff : ℚ)
    (view_count like_count : Option Int) (s : String)
    (h : fromisoformat (replaceZ s) = none) :
    calculate_score localOff view_count like_count s
      = RATIO_WEIGHT * ratio_component view_count like_count
    ∧ ∀ vd : VideoData, (vd.snippet.getD {}).publishedAt = some s → s ≠ "" →
        (scoreOne localOff vd).isSome = true := by
  constructor
  · simp [calculate_score, recency_component, h]
  · intro vd hpa hs
    simp [scoreOne, hpa, hs]

/-- Witness for C2 at the unparseable date `"not-a-date"`. -/
theorem claim_C2_parse_failure_degrades_witness :
    calculate_score 0 (some 1000) (some 100) "not-a-date"
      = RATIO_WEIGHT * ratio_component (some 1000) (some 100)
    ∧ ∀ vd : VideoData,
        (vd.snippet.getD {}).publishedAt = some "not-a-date" →
        "not-a-date" ≠ "" → (scoreOne (0 : ℚ) vd).isSome = true :=
  claim_C2_parse_failure_degrades 0 (some 1000) (some 100) "not-a-date"
    (by decide)

/-- C3: `calculate_score` is total and hits no exceptional or undefined
case on any input: the explicitly-checked variant always returns `some`
of its value.  (Real arithmetic is modelled exactly by `ℚ`, where no NaN
or infinity exists; the guarded division is the only exceptional point
of the source.) -/
theorem claim_C3_score_total (localOff : ℚ) (view_count like_count : Option Int)
    (s : String) :
    calculate_score_checked localOff view_count like_count s
      = some (calculate_score localOff view_count like_count s) := by
  simp only [calculate_score_checked, calculate_score, ratio_component]
  split_ifs with h1 h2 h3
  · omega
  · rfl
  · rfl
  · rfl

/-- C4: the descending sort by score is stable — a pair of items with
equal scores that appears in order in the pre-sort sequence still
appears in that order after `sortByScoreDesc`. -/
theorem claim_C4_sort_stable (l : List ScoredVideo) (a b : ScoredVideo)
    (hscore : a.customScore = b.customScore) (hsub : [a, b].Sublist l) :
    [a, b].Sublist (sortByScoreDesc l) := by
  apply List.pair_sublist_mergeSort
  · intro x y z hxy hyz
    simp only [decide_eq_true_eq] at *
    exact le_trans hyz hxy
  · intro x y
    simpa using le_total y.customScore x.customScore
  · simp [hscore]
  · exact hsub

/-- A concrete scored item used by the stability witness. -/
def svA : ScoredVideo :=
  { id := "A", url := "https://www.youtube.com/watch?v=A", title := "tA"
    channelTitle := "cA", publishedAt := "2024-01-01T00:00:00Z"
    description := none, viewCount := some 10, likeCount := some 1
    customScore := 1 }

/-- A second scored item with the same score as `svA`. -/
def svB : ScoredVideo :=
  { id := "B", url := "https://www.youtube.com/watch?v=B", title := "tB"
    channelTitle := "cB", publishedAt := "2025-01-01T00:00:00Z"
    description := none, viewCount := some 20, likeCount := some 2
    customScore := 1 }

/-- Witness for C4: two distinct items with equal scores stay in input
order through the sort. -/
theorem claim_C4_sort_stable_witness :
    [svA, svB].Sublist (sortByScoreDesc [svA, svB]) :=
  claim_C4_sort_stable [svA, svB] svA svB rfl (List.Sublist.refl [svA, svB])

/-! ## Concrete frozen external responses, used by the witnesses.
They realize the spec's end-to-end scenario: the search returns video
ids `A`, `B`, `C`; the details capability answers for `A` and `B` but
omits `C`. -/

/-- A frozen search response with three video items. -/
def exSearch : String → Nat → List SearchItem :=
  fun _ _ =>
    [⟨some ⟨"youtube#video", "A"⟩⟩,
     ⟨some ⟨"youtube#video", "B"⟩⟩,
     ⟨some ⟨"youtube#video", "C"⟩⟩]

/-- A frozen details capability that knows every requested id except
`C`. -/
def exDetails : List String → List VideoData :=
  fun b => b.filterMap (fun i =>
    if i = "C" then none
    else some
      { id := i
        snippet := some
          { publishedAt := some "2024-01-01T00:00:00Z"
            title := some "t", channelTitle := some "c", description := none }
        statistics := some { viewCount := some 1000, likeCount := some 100 } })

/-- A frozen details capability that answers every requested id but
returns item `C` without a `publishedAt` field. -/
def exDetailsNoDate : List String → List VideoData :=
  fun b => b.map (fun i =>
    if i = "C" then
      { id := i
        snippet := some
          { publishedAt := none
            title := some "t", channelTitle := some "c", description := none }
        statistics := some {} }
    else
      { id := i
        snippet := some
          { publishedAt := some "2024-01-01T00:00:00Z"
            title := some "t", channelTitle := some "c", description := none }
        statistics := some { viewCount := some 1000, likeCount := some 100 } })

/-- Length of the ranked output, in both pipeline branches. -/
theorem pipeline_length_eq (localOff : ℚ)
    (search : String → Nat → List SearchItem)
    (details : List String → List VideoData) (query : String)
    (max_results : Nat) :
    (search_videos_custom_score localOff search details query max_results).length
      = min max_results
          (((batches (extractVideoIds (search query INITIAL_FETCH_COUNT))).flatMap
            details).filterMap (scoreOne localOff)).length := by
  simp only [search_videos_custom_score]
  split
  · rename_i h
    rw [h]
    simp [batches, batchesAux]
  · simp [sortByScoreDesc, List.length_take]

/-- C5: the ranked output never exceeds the requested count, the pool
bound, or the number of surviving scored items (it is exactly the
requested count capped by the survivor count — all survivors are
returned when fewer than requested, with no padding), and every output
item's id comes from the candidate pool. -/
theorem claim_C5_output_bounded (localOff : ℚ)
    (search : String → Nat → List SearchItem)
    (details : List String → List VideoData) (query : String)
    (max_results : Nat)
    (hlen : ∀ b, (details b).length ≤ b.length)
    (hids : ∀ b, ∀ vd ∈ details b, vd.id ∈ b)
    (hpool : (search query INITIAL_FETCH_COUNT).length ≤ INITIAL_FETCH_COUNT) :
    (search_videos_custom_score localOff search details query max_results).length
      = min max_results
          (((batches (extractVideoIds (search query INITIAL_FETCH_COUNT))).flatMap
            details).filterMap (scoreOne localOff)).length
    ∧ (search_videos_custom_score localOff search details query
        max_results).length ≤ INITIAL_FETCH_COUNT
    ∧ ∀ item ∈ search_videos_custom_score localOff search details query
        max_results,
        item.id ∈ extractVideoIds (search query INITIAL_FETCH_COUNT) := by
  refine ⟨pipeline_length_eq localOff search details query max_results, ?_, ?_⟩
  · rw [pipeline_length_eq localOff search details query max_results]
    have h1 : (((batches (extractVideoIds (search query
        INITIAL_FETCH_COUNT))).flatMap details).filterMap
          (scoreOne localOff)).length
        ≤ ((batches (extractVideoIds (search query
            INITIAL_FETCH_COUNT))).flatMap details).length :=
      List.length_filterMap_le _ _
    have h2 := flatMap_details_length_le details hlen
      (batches (extractVideoIds (search query INITIAL_FETCH_COUNT)))
    rw [batches_flatten] at h2
    have h3 := extractVideoIds_length_le (search query INITIAL_FETCH_COUNT)
    have h4 := Nat.min_le_right max_results
      ((((batches (extractVideoIds (search query
        INITIAL_FETCH_COUNT))).flatMap details).filterMap
          (scoreOne localOff)).length)
    omega
  · intro item h
    obtain ⟨vd, sv, hvd, hs, rfl⟩ :=
      mem_output_structure localOff search details query max_results item h
    obtain ⟨b, hb, hvdb⟩ := List.mem_flatMap.mp hvd
    have hideq : (toVideoItem sv).id = vd.id := scoreOne_id localOff vd sv hs
    rw [hideq]
    exact mem_of_mem_batches hb (hids b vd hvdb)

/-- Witness for C5 on the frozen scenario responses, with requested
count 10. -/
theorem claim_C5_output_bounded_witness :
    (search_videos_custom_score 0 exSearch exDetails "cats" 10).length
      = min 10
          (((batches (extractVideoIds (exSearch "cats"
            INITIAL_FETCH_COUNT))).flatMap exDetails).filterMap
              (scoreOne 0)).length
    ∧ (search_videos_custom_score 0 exSearch exDetails "cats" 10).length
        ≤ INITIAL_FETCH_COUNT
    ∧ ∀ item ∈ search_videos_custom_score 0 exSearch exDetails "cats" 10,
        item.id ∈ extractVideoIds (exSearch "cats" INITIAL_FETCH_COUNT) :=
  claim_C5_output_bounded 0 exSearch exDetails "cats" 10
    (fun b => List.length_filterMap_le _ b)
    (by
      intro b vd h
      simp only [exDetails] at h
      obtain ⟨i, hi, hf⟩ := List.mem_filterMap.mp h
      by_cases hc : i = "C"
      · simp [hc] at hf
      · simp only [if_neg hc, Option.some.injEq] at hf
        subst hf
        exact hi)
    (by decide)

/-- C6: the batching loop splits the id sequence into consecutive
batches of at most 50 ids whose concatenation is exactly the input
sequence — so no batch is oversized and no id outside the input is ever
requested. -/
theorem claim_C6_batching (ids : List String) :
    (batches ids).flatten = ids ∧ ∀ b ∈ batches ids, b.length ≤ 50 :=
  ⟨batches_flatten ids, batches_size_le ids⟩

/-- C7: a candidate id returned by the search but absent from every
details response receives no score and appears nowhere in the ranked
output. -/
theorem claim_C7_missing_details_dropped (localOff : ℚ)
    (search : String → Nat → List SearchItem)
    (details : List String → List VideoData) (query : String) (n : Nat)
    (i : String)
    (_hi : i ∈ extractVideoIds (search query INITIAL_FETCH_COUNT))
    (habsent : i ∉ ((batches (extractVideoIds (search query
      INITIAL_FETCH_COUNT))).flatMap details).map VideoData.id) :
    i ∉ (search_videos_custom_score localOff search details query n).map
      VideoItem.id := by
  intro hmem
  obtain ⟨item, hitem, hid⟩ := List.mem_map.mp hmem
  obtain ⟨vd, sv, hvd, hs, rfl⟩ :=
    mem_output_structure localOff search details query n item hitem
  exact habsent (List.mem_map.mpr
    ⟨vd, hvd, (scoreOne_id localOff vd sv hs).symm.trans hid⟩)

/-- Witness for C7: id `C` is searched but missing from the details
responses, and indeed never reaches the output. -/
theorem claim_C7_missing_details_dropped_witness :
    "C" ∉ (search_videos_custom_score 0 exSearch exDetails "cats" 10).map
      VideoItem.id :=
  claim_C7_missing_details_dropped 0 exSearch exDetails "cats" 10 "C"
    (by decide) (by decide)

/-- C8: with frozen external responses the pipeline is a deterministic
function — equal inputs give identical output sequences — and
`calculate_score` is a deterministic function of its arguments. -/
theorem claim_C8_deterministic (localOff : ℚ)
    (search1 search2 : String → Nat → List SearchItem)
    (details1 details2 : List String → List VideoData)
    (q1 q2 : String) (n1 n2 : Nat)
    (hs : search1 = search2) (hd : details1 = details2) (hq : q1 = q2)
    (hn : n1 = n2) :
    search_videos_custom_score localOff search1 details1 q1 n1
      = search_videos_custom_score localOff search2 details2 q2 n2
    ∧ ∀ (v1 l1 : Option Int) (s1 : String) (v2 l2 : Option Int) (s2 : String),
        v1 = v2 → l1 = l2 → s1 = s2 →
        calculate_score localOff v1 l1 s1 = calculate_score localOff v2 l2 s2 := by
  subst hs hd hq hn
  refine ⟨rfl, ?_⟩
  intro v1 l1 s1 v2 l2 s2 hv hl hstr
  subst hv hl hstr
  rfl

/-- Witness for C8: two runs on the frozen scenario responses. -/
theorem claim_C8_deterministic_witness :
    search_videos_custom_score 0 exSearch exDetails "cats" 10
      = search_videos_custom_score 0 exSearch exDetails "cats" 10
    ∧ ∀ (v1 l1 : Option Int) (s1 : String) (v2 l2 : Option Int) (s2 : String),
        v1 = v2 → l1 = l2 → s1 = s2 →
        calculate_score 0 v1 l1 s1 = calculate_score 0 v2 l2 s2 :=
  claim_C8_deterministic 0 exSearch exSearch exDetails exDetails
    "cats" "cats" 10 10 rfl rfl rfl rfl

/-- C9 counterexample: a request with a present but empty query is not
rejected — validation passes and the handler body (which performs the
outbound calls) runs, returning `ok`. -/
theorem claim_C9_counterexample :
    handle_request 0 exSearch exDetails (some "") (some 10)
      = Except.ok (search_videos_custom_score 0 exSearch exDetails "" 10) := rfl

/-- C9 (amended): a request with a missing query, or with `max_results`
outside `1..50`, is rejected with a 422 validation error uniformly in
the external capabilities — hence before any outbound call.  (A present
but empty query is not rejected; see the counterexample.) -/
theorem claim_C9_validation (query : Option String) (max_results : Option Int)
    (h : query = none ∨ ∃ m, max_results = some m ∧ (m < 1 ∨ 50 < m)) :
    ∀ (localOff : ℚ) (search : String → Nat → List SearchItem)
      (details : List String → List VideoData),
      handle_request localOff search details query max_results
        = Except.error 422 := by
  intro localOff search details
  rcases h with h | ⟨m, hm, hrange⟩
  · subst h
    rfl
  · subst hm
    cases query with
    | none => rfl
    | some q =>
      have hv : validate_params (some q) (some m) = Except.error 422 := by
        simp only [validate_params]
        rw [if_neg]
        simp only [INITIAL_FETCH_COUNT]
        omega
      simp only [handle_request, hv]

/-- Witness for the amended C9 at a missing query. -/
theorem claim_C9_validation_witness :
    handle_request 0 exSearch exDetails none (some 10) = Except.error 422 :=
  claim_C9_validation none (some 10) (Or.inl rfl) 0 exSearch exDetails

/-- C10: an item whose snippet has no `publishedAt` value is excluded
from scoring (its `scoreOne` is `none`), and an id all of whose details
items lack a `publishedAt` never appears in the output — the item is
dropped, not scored with recency 0. -/
theorem claim_C10_absent_date_drops (localOff : ℚ)
    (search : String → Nat → List SearchItem)
    (details : List String → List VideoData) (query : String) (n : Nat)
    (i : String)
    (habsent : ∀ b, ∀ vd ∈ details b, vd.id = i →
      (vd.snippet.getD {}).publishedAt = none) :
    (∀ vd : VideoData, (vd.snippet.getD {}).publishedAt = none →
      scoreOne localOff vd = none)
    ∧ i ∉ (search_videos_custom_score localOff search details query n).map
        VideoItem.id := by
  refine ⟨fun vd h => scoreOne_none_of_no_date localOff vd h, ?_⟩
  intro hmem
  obtain ⟨item, hitem, hid⟩ := List.mem_map.mp hmem
  obtain ⟨vd, sv, hvd, hs, rfl⟩ :=
    mem_output_structure localOff search details query n item hitem
  obtain ⟨b, hb, hvdb⟩ := List.mem_flatMap.mp hvd
  have hideq : vd.id = i := (scoreOne_id localOff vd sv hs).symm.trans hid
  rw [scoreOne_none_of_no_date localOff vd (habsent b vd hvdb hideq)] at hs
  exact absurd hs (by simp)

/-- Witness for C10: item `C` is present in the details responses but
without a `publishedAt`, and never reaches the output. -/
theorem claim_C10_absent_date_drops_witness :
    (∀ vd : VideoData, (vd.snippet.getD {}).publishedAt = none →
      scoreOne (0 : ℚ) vd = none)
    ∧ "C" ∉ (search_videos_custom_score 0 exSearch exDetailsNoDate "cats"
        10).map VideoItem.id :=
  claim_C10_absent_date_drops 0 exSearch exDetailsNoDate "cats" 10 "C"
    (by
      intro b vd h hid
      simp only [exDetailsNoDate] at h
      obtain ⟨j, hj, rfl⟩ := List.mem_map.mp h
      by_cases hc : j = "C"
      · simp [hc]
      · rw [if_neg hc] at hid ⊢
        exact absurd hid hc)
